import Mathlib

/-
Verification development for the tall-affiliate-common event-delivery core.

Shallow embedding of:
  - pkg/outbox/payload.go        (payload guard)
  - pkg/events/events.go         (event-type constants, NormalizeEventType)
  - pkg/events/codes.go          (CodeToCE / CEToCode tables)
  - pkg/redis/stream_producer.go (PublishEvent)
  - pkg/redis/stream_consumer.go (ConsumeStream, processMessage)

Go byte slices and strings are both modelled as Lean `String`
(lengths agree for the ASCII data handled here); Go `error` results are
modelled by explicit error inductives; `encoding/json` (an external
library, not part of the repository) is modelled by explicit function
parameters, with a small concrete well-formedness checker `jsonValid`
used to instantiate them on concrete inputs.
-/

/-! ## Model of encoding/json well-formedness (external library)

A miniature recursive-descent JSON syntax checker, used as a concrete
realization of the `json.Unmarshal`-into-`interface` validity test that
`ConvertStringToRawMessage` / `ConvertBytesToRawMessage` perform.  It is
only ever evaluated on small concrete literals in this file. -/

def lbrace : Char := Char.ofNat 123

def rbrace : Char := Char.ofNat 125

def jsonWs (c : Char) : Bool :=
  c = ' ' || c = '\t' || c = '\n' || c = '\r'

def skipWs : List Char → List Char
  | [] => []
  | c :: cs => if jsonWs c then skipWs cs else c :: cs

def parseLit : List Char → List Char → Option (List Char)
  | [], cs => some cs
  | _ :: _, [] => none
  | l :: ls, c :: cs => if c = l then parseLit ls cs else none

def numChar (c : Char) : Bool :=
  c.isDigit || c = '-' || c = '+' || c = '.' || c = 'e' || c = 'E'

def takeNum : List Char → List Char
  | [] => []
  | c :: cs => if numChar c then takeNum cs else c :: cs

def parseStringRest : List Char → Option (List Char)
  | [] => none
  | '"' :: cs => some cs
  | '\\' :: [] => none
  | '\\' :: _ :: cs => parseStringRest cs
  | _ :: cs => parseStringRest cs

mutual

def parseValue : Nat → List Char → Option (List Char)
  | 0, _ => none
  | fuel + 1, cs =>
    match skipWs cs with
    | [] => none
    | c :: rest =>
      if c = '"' then parseStringRest rest
      else if c = lbrace then
        match skipWs rest with
        | [] => none
        | c2 :: rest2 => if c2 = rbrace then some rest2 else parseMembers fuel (c2 :: rest2)
      else if c = '[' then
        match skipWs rest with
        | [] => none
        | c2 :: rest2 => if c2 = ']' then some rest2 else parseItems fuel (c2 :: rest2)
      else if c = 't' then parseLit ['r', 'u', 'e'] rest
      else if c = 'f' then parseLit ['a', 'l', 's', 'e'] rest
      else if c = 'n' then parseLit ['u', 'l', 'l'] rest
      else if numChar c then some (takeNum rest)
      else none

def parseMembers : Nat → List Char → Option (List Char)
  | 0, _ => none
  | fuel + 1, cs =>
    match skipWs cs with
    | '"' :: rest =>
      match parseStringRest rest with
      | none => none
      | some rest2 =>
        match skipWs rest2 with
        | ':' :: rest3 =>
          match parseValue fuel rest3 with
          | none => none
          | some rest4 =>
            match skipWs rest4 with
            | [] => none
            | c :: rest5 =>
              if c = ',' then parseMembers fuel rest5
              else if c = rbrace then some rest5
              else none
        | _ => none
    | _ => none

def parseItems : Nat → List Char → Option (List Char)
  | 0, _ => none
  | fuel + 1, cs =>
    match parseValue fuel cs with
    | none => none
    | some rest =>
      match skipWs rest with
      | ',' :: rest2 => parseItems fuel rest2
      | ']' :: rest2 => some rest2
      | _ => none

end

/-- Concrete model of the well-formedness test `json.Unmarshal(data, &temp) == nil`. -/
def jsonValid (s : String) : Bool :=
  match parseValue (2 * s.length + 2) s.data with
  | some rest => (skipWs rest).isEmpty
  | none => false

/-! ## pkg/outbox/payload.go -/

/-- MaxPayloadSize defines the maximum allowed payload size in bytes (16KB).
Source: pkg/outbox/payload.go line 10. -/
def MaxPayloadSize : Nat := 16 * 1024

/-- The wrapped inner error of a PayloadError.  `sizeExceeded n m` models
fmt.Errorf("payload size %d bytes exceeds maximum %d bytes", n, m) — it
carries the triggering byte length.  The other constructors model the other
fmt.Errorf messages of pkg/outbox/payload.go. -/
inductive PayloadCause where
  | sizeExceeded (size max : Nat)
  | invalidJSONString
  | invalidJSONBytes
  | emptyPayload
  | unmarshalFailed
  | marshalFailed
deriving DecidableEq

/-- PayloadError from pkg/outbox/payload.go: Operation string plus wrapped error. -/
structure PayloadError where
  operation : String
  cause : PayloadCause
deriving DecidableEq

/-- Model of the external encoding/json codec for a Go value type α:
`marshal` is json.Marshal (`none` = marshal error), `unmarshal` is
json.Unmarshal into a target of type α (`none` = failure). -/
structure JsonCodec (α : Type) where
  marshal : α → Option String
  unmarshal : String → Option α

/-- MarshalPayload (pkg/outbox/payload.go lines 24-46): converts a value to
json.RawMessage with validation.  The Go `payload == nil` test is the
`Option.none` case; the size check rejects strictly more than MaxPayloadSize. -/
def MarshalPayload {α : Type} (c : JsonCodec α) (payload : Option α) : Except PayloadError String :=
  match payload with
  | none => .ok "null"
  | some p =>
    match c.marshal p with
    | none => .error ⟨"marshal", .marshalFailed⟩
    | some data =>
      if data.length > MaxPayloadSize then
        .error ⟨"validation", .sizeExceeded data.length MaxPayloadSize⟩
      else
        .ok data

/-- UnmarshalPayload (pkg/outbox/payload.go lines 49-66): rejects an empty
payload, then unmarshals into the target type. -/
def UnmarshalPayload {α : Type} (c : JsonCodec α) (payload : String) : Except PayloadError α :=
  if payload.length = 0 then
    .error ⟨"unmarshal", .emptyPayload⟩
  else
    match c.unmarshal payload with
    | none => .error ⟨"unmarshal", .unmarshalFailed⟩
    | some v => .ok v

/-- ValidatePayloadSize (pkg/outbox/payload.go lines 69-77). -/
def ValidatePayloadSize (payload : String) : Option PayloadError :=
  if payload.length > MaxPayloadSize then
    some ⟨"validation", .sizeExceeded payload.length MaxPayloadSize⟩
  else
    none

/-- ConvertStringToRawMessage (pkg/outbox/payload.go lines 86-109).
`valid` models the external json.Unmarshal well-formedness test.
Note the order: the empty-string shortcut first, then validity, then size. -/
def ConvertStringToRawMessage (valid : String → Bool) (jsonStr : String) : Except PayloadError String :=
  if jsonStr = "" then .ok "null"
  else if valid jsonStr = false then
    .error ⟨"conversion", .invalidJSONString⟩
  else if jsonStr.length > MaxPayloadSize then
    .error ⟨"validation", .sizeExceeded jsonStr.length MaxPayloadSize⟩
  else
    .ok jsonStr

/-- ConvertBytesToRawMessage (pkg/outbox/payload.go lines 112-135); same
structure as ConvertStringToRawMessage, with the byte-slice emptiness test
`len(data) == 0` and the "invalid JSON bytes" message. -/
def ConvertBytesToRawMessage (valid : String → Bool) (data : String) : Except PayloadError String :=
  if data.length = 0 then .ok "null"
  else if valid data = false then
    .error ⟨"conversion", .invalidJSONBytes⟩
  else if data.length > MaxPayloadSize then
    .error ⟨"validation", .sizeExceeded data.length MaxPayloadSize⟩
  else
    .ok data

/-! ## pkg/events/events.go — event-type constants

Lean `def`s mirroring the Go `const` declarations, keeping the source's
names and the alias structure (alias constants are defined in terms of the
constants they alias, exactly as in the source). -/

def EVENT_00A_SCRAPER_JOB_REQUESTED : String := "00A_SCRAPER_JOB_REQUESTED"

def EVENT_02A_PRODUCT_VALIDATED : String := "02A_PRODUCT_VALIDATED"

def EVENT_02B_PRODUCT_IGNORED : String := "02B_PRODUCT_IGNORED"

def EVENT_02C_PRODUCT_REVIEW_REQUIRED : String := "02C_PRODUCT_REVIEW_REQUIRED"

def EVENT_08A_CONTENT_GENERATION_REQUESTED : String := "08A_CONTENT_GENERATION_REQUESTED"

def EVENT_09A_CONTENT_GENERATION_STARTED : String := "09A_CONTENT_GENERATION_STARTED"

def EVENT_10A_CONTENT_GENERATED : String := "10A_CONTENT_GENERATED"

def EVENT_10B_CONTENT_GENERATION_FAILED : String := "10B_CONTENT_GENERATION_FAILED"

def EVENT_17_PRODUCT_AVAILABILITY_CHANGED : String := "17_PRODUCT_AVAILABILITY_CHANGED"

def CATALOG_PRODUCT_DETECTED_V1 : String := "catalog.product.detected.v1"

def CATALOG_PRODUCT_VALIDATED_V1 : String := "catalog.product.validated.v1"

def CATALOG_PRODUCT_IGNORED_V1 : String := "catalog.product.ignored.v1"

def CATALOG_PRODUCT_REVIEW_REQUIRED_V1 : String := "catalog.product.review_required.v1"

def CONTENT_GENERATION_REQUESTED_V1 : String := "content.generation.requested.v1"

def CONTENT_GENERATION_STARTED_V1 : String := "content.generation.started.v1"

def CONTENT_GENERATED_V1 : String := "content.generated.v1"

def CONTENT_GENERATION_FAILED_V1 : String := "content.generation.failed.v1"

def CONTENT_GENERATION_RETRIED_V1 : String := "content.generation.retried.v1"

def REVIEWS_REQUESTED_V1 : String := "reviews.requested.v1"

def REVIEWS_FETCHED_V1 : String := "reviews.fetched.v1"

def REVIEWS_PROCESSED_V1 : String := "reviews.processed.v1"

def REVIEWS_VALIDATED_V1 : String := "reviews.validated.v1"

def REVIEWS_FETCH_FAILED_V1 : String := "reviews.fetch_failed.v1"

def REVIEWS_STORED_V1 : String := "reviews.stored.v1"

def REVIEWS_ERROR_V1 : String := "reviews.error.v1"

def CATALOG_PRODUCT_ENRICHMENT_REQUESTED_V1 : String := "catalog.product.enrichment.requested.v1"

def CATALOG_PRODUCT_ENRICHMENT_COMPLETED_V1 : String := "catalog.product.enrichment.completed.v1"

def CATALOG_PRODUCT_ENRICHMENT_FAILED_V1 : String := "catalog.product.enrichment.failed.v1"

def ENRICHMENT_RETRY_V1 : String := "enrichment.retry.v1"

def QUALITY_ASSESSMENT_REQUESTED_V1 : String := "quality.assessment.requested.v1"

def QUALITY_ASSESSMENT_COMPLETED_V1 : String := "quality.assessment.completed.v1"

def QUALITY_ASSESSMENT_FAILED_V1 : String := "quality.assessment.failed.v1"

def PRODUCT_READY_FOR_PUBLICATION_V1 : String := "product.ready_for_publication.v1"

def PRODUCT_UPDATED_V1 : String := "product.updated.v1"

def PRODUCT_UPDATE_FAILED_V1 : String := "product.update_failed.v1"

def PRODUCT_AVAILABILITY_CHANGED_V1 : String := "product.availability.changed.v1"

def PRODUCT_STATUS_CHANGED_V1 : String := "product.status.changed.v1"

def PRODUCT_DELETED_V1 : String := "product.deleted.v1"

def PRICE_UPDATED_V1 : String := "price.updated.v1"

def PRICE_UPDATE_FAILED_V1 : String := "price.update_failed.v1"

def PRICE_MONITORING_SCHEDULED_V1 : String := "price.monitoring.scheduled.v1"

def AVAILABILITY_CHECK_SCHEDULED_V1 : String := "product.availability_check.scheduled.v1"

def PERIODIC_UPDATE_SCHEDULED_V1 : String := "product.periodic_update.scheduled.v1"

def PRODUCT_ENRICHMENT_REQUESTED_V1 : String := "product.enrichment.requested.v1"

def PRODUCT_ENRICHMENT_COMPLETED_V1 : String := "product.enrichment.completed.v1"

def PRODUCT_ENRICHMENT_FAILED_V1 : String := "product.enrichment.failed.v1"

def EVENT_05D_ENRICHMENT_RETRY : String := ENRICHMENT_RETRY_V1

def EVENT_06_QUALITY_ASSESSMENT_REQUESTED : String := QUALITY_ASSESSMENT_REQUESTED_V1

def EVENT_07A_QUALITY_ASSESSMENT_COMPLETED : String := QUALITY_ASSESSMENT_COMPLETED_V1

def EVENT_07B_QUALITY_ASSESSMENT_FAILED : String := QUALITY_ASSESSMENT_FAILED_V1

def EVENT_08B_REVIEWS_REQUESTED : String := REVIEWS_REQUESTED_V1

def EVENT_09B_REVIEWS_FETCHED : String := REVIEWS_FETCHED_V1

def EVENT_10C_REVIEWS_PROCESSED : String := REVIEWS_PROCESSED_V1

def EVENT_10D_CONTENT_GENERATION_RETRIED : String := CONTENT_GENERATION_RETRIED_V1

def EVENT_11A_REVIEWS_VALIDATED : String := REVIEWS_VALIDATED_V1

def EVENT_11B_REVIEWS_FETCH_FAILED : String := REVIEWS_FETCH_FAILED_V1

def EVENT_12A_REVIEWS_STORED : String := REVIEWS_STORED_V1

def EVENT_12B_REVIEWS_ERROR : String := REVIEWS_ERROR_V1

def EVENT_13_PRODUCT_READY_FOR_PUBLICATION : String := PRODUCT_READY_FOR_PUBLICATION_V1

def EVENT_14A_PRICE_MONITORING_SCHEDULED : String := PRICE_MONITORING_SCHEDULED_V1

def EVENT_14B_AVAILABILITY_CHECK_SCHEDULED : String := AVAILABILITY_CHECK_SCHEDULED_V1

def EVENT_14C_PERIODIC_UPDATE_SCHEDULED : String := PERIODIC_UPDATE_SCHEDULED_V1

def EVENT_15A_PRICE_UPDATED : String := PRICE_UPDATED_V1

def EVENT_15B_PRICE_UPDATE_FAILED : String := PRICE_UPDATE_FAILED_V1

def EVENT_16A_PRODUCT_UPDATED : String := PRODUCT_UPDATED_V1

def EVENT_16B_PRODUCT_UPDATE_FAILED : String := PRODUCT_UPDATE_FAILED_V1

def EVENT_18_PRODUCT_STATUS_CHANGED : String := PRODUCT_STATUS_CHANGED_V1

def EVENT_19_PRODUCT_DELETED : String := PRODUCT_DELETED_V1

def Event_00A_ScraperJobRequested : String := EVENT_00A_SCRAPER_JOB_REQUESTED

def Event_02A_ProductValidated : String := EVENT_02A_PRODUCT_VALIDATED

def Event_02B_ProductIgnored : String := EVENT_02B_PRODUCT_IGNORED

def Event_02C_ProductReviewRequired : String := EVENT_02C_PRODUCT_REVIEW_REQUIRED

def Event_05D_EnrichmentRetry : String := EVENT_05D_ENRICHMENT_RETRY

def Event_06_QualityAssessmentRequested : String := EVENT_06_QUALITY_ASSESSMENT_REQUESTED

def Event_07A_QualityAssessmentCompleted : String := EVENT_07A_QUALITY_ASSESSMENT_COMPLETED

def Event_07B_QualityAssessmentFailed : String := EVENT_07B_QUALITY_ASSESSMENT_FAILED

def Event_08A_ContentGenerationRequested : String := EVENT_08A_CONTENT_GENERATION_REQUESTED

def Event_08B_ReviewsRequested : String := EVENT_08B_REVIEWS_REQUESTED

def Event_09A_ContentGenerationStarted : String := EVENT_09A_CONTENT_GENERATION_STARTED

def Event_09B_ReviewsFetched : String := EVENT_09B_REVIEWS_FETCHED

def Event_10A_ContentGenerated : String := EVENT_10A_CONTENT_GENERATED

def Event_10B_ContentGenerationFailed : String := EVENT_10B_CONTENT_GENERATION_FAILED

def Event_10C_ReviewsProcessed : String := EVENT_10C_REVIEWS_PROCESSED

def Event_10D_ContentGenerationRetried : String := EVENT_10D_CONTENT_GENERATION_RETRIED

def Event_11A_ReviewsValidated : String := EVENT_11A_REVIEWS_VALIDATED

def Event_11B_ReviewsFetchFailed : String := EVENT_11B_REVIEWS_FETCH_FAILED

def Event_12A_ReviewsStored : String := EVENT_12A_REVIEWS_STORED

def Event_12B_ReviewsError : String := EVENT_12B_REVIEWS_ERROR

def Event_13_ProductReadyForPublication : String := EVENT_13_PRODUCT_READY_FOR_PUBLICATION

def Event_14A_PriceMonitoringScheduled : String := EVENT_14A_PRICE_MONITORING_SCHEDULED

def Event_14B_AvailabilityCheckScheduled : String := EVENT_14B_AVAILABILITY_CHECK_SCHEDULED

def Event_14C_PeriodicUpdateScheduled : String := EVENT_14C_PERIODIC_UPDATE_SCHEDULED

def Event_15A_PriceUpdated : String := EVENT_15A_PRICE_UPDATED

def Event_15B_PriceUpdateFailed : String := EVENT_15B_PRICE_UPDATE_FAILED

def Event_16A_ProductUpdated : String := EVENT_16A_PRODUCT_UPDATED

def Event_16B_ProductUpdateFailed : String := EVENT_16B_PRODUCT_UPDATE_FAILED

def Event_17_ProductAvailabilityChanged : String := EVENT_17_PRODUCT_AVAILABILITY_CHANGED

def Event_18_ProductStatusChanged : String := EVENT_18_PRODUCT_STATUS_CHANGED

def Event_19_ProductDeleted : String := EVENT_19_PRODUCT_DELETED

def VariationEnrichmentRequested : String := "04B_VARIATION_ENRICHMENT_REQUESTED"

def CatalogProductDetectedV1 : String := CATALOG_PRODUCT_DETECTED_V1

def CatalogProductValidatedV1 : String := CATALOG_PRODUCT_VALIDATED_V1

def CatalogProductIgnoredV1 : String := CATALOG_PRODUCT_IGNORED_V1

def CatalogProductReviewRequiredV1 : String := CATALOG_PRODUCT_REVIEW_REQUIRED_V1

def CatalogProductEnrichmentRequestedV1 : String := CATALOG_PRODUCT_ENRICHMENT_REQUESTED_V1

def CatalogProductEnrichmentCompletedV1 : String := CATALOG_PRODUCT_ENRICHMENT_COMPLETED_V1

def CatalogProductEnrichmentFailedV1 : String := CATALOG_PRODUCT_ENRICHMENT_FAILED_V1

def ContentGenerationRequestedV1 : String := CONTENT_GENERATION_REQUESTED_V1

def ContentGenerationStartedV1 : String := CONTENT_GENERATION_STARTED_V1

def ContentGeneratedV1 : String := CONTENT_GENERATED_V1

def ContentGenerationFailedV1 : String := CONTENT_GENERATION_FAILED_V1

def ContentGenerationRetriedV1 : String := CONTENT_GENERATION_RETRIED_V1

def PriceUpdatedV1 : String := PRICE_UPDATED_V1

def PriceUpdateFailedV1 : String := PRICE_UPDATE_FAILED_V1

def ProductAvailabilityChangedV1 : String := PRODUCT_AVAILABILITY_CHANGED_V1

def ProductStatusChangedV1 : String := PRODUCT_STATUS_CHANGED_V1

/-! ## pkg/events/events.go — NormalizeEventType (lines 952-1058)

The Go function is a `switch` on the input string with one `case` per known
spelling (all case strings are distinct) and a `default` returning the input
unchanged with `false`.  It is embedded as first-match lookup in the list of
(case, result) pairs, in source order. -/

def normalizeCases : List (String × String) :=
  [ ("CONTENT_GENERATION_REQUESTED", Event_08A_ContentGenerationRequested),
    ("CONTENT_GENERATION_STARTED", Event_09A_ContentGenerationStarted),
    ("CONTENT_GENERATED", Event_10A_ContentGenerated),
    ("CONTENT_GENERATION_FAILED", Event_10B_ContentGenerationFailed),
    ("CONTENT_GENERATION_RETRIED", Event_10D_ContentGenerationRetried),
    ("SCRAPER_JOB_REQUESTED", Event_00A_ScraperJobRequested),
    (Event_00A_ScraperJobRequested, Event_00A_ScraperJobRequested),
    ("PRODUCT_VALIDATED", Event_02A_ProductValidated),
    ("PRODUCT_IGNORED", Event_02B_ProductIgnored),
    ("PRODUCT_REVIEW_REQUIRED", Event_02C_ProductReviewRequired),
    ("04D_VARIANTS_ENRICHMENT_REQUESTED", VariationEnrichmentRequested),
    ("ENRICHMENT_RETRY", Event_05D_EnrichmentRetry),
    ("QUALITY_ASSESSMENT_REQUESTED", Event_06_QualityAssessmentRequested),
    ("QUALITY_ASSESSMENT_COMPLETED", Event_07A_QualityAssessmentCompleted),
    ("QUALITY_ASSESSMENT_FAILED", Event_07B_QualityAssessmentFailed),
    ("product.deleted.v1", Event_19_ProductDeleted),
    ("product.status.changed.v1", Event_18_ProductStatusChanged),
    ("product.availability.changed.v1", Event_17_ProductAvailabilityChanged),
    ("product.updated.v1", Event_16A_ProductUpdated),
    ("product.update_failed.v1", Event_16B_ProductUpdateFailed),
    ("price.updated.v1", Event_15A_PriceUpdated),
    ("price.update_failed.v1", Event_15B_PriceUpdateFailed),
    ("product.ready_for_publication.v1", Event_13_ProductReadyForPublication),
    ("price.monitoring.scheduled.v1", Event_14A_PriceMonitoringScheduled),
    ("product.availability_check.scheduled.v1", Event_14B_AvailabilityCheckScheduled),
    ("product.periodic_update.scheduled.v1", Event_14C_PeriodicUpdateScheduled),
    ("content.generation.requested.v1", Event_08A_ContentGenerationRequested),
    ("content.generation.started.v1", Event_09A_ContentGenerationStarted),
    ("content.generated.v1", Event_10A_ContentGenerated),
    ("content.generation.failed.v1", Event_10B_ContentGenerationFailed),
    ("content.generation.retried.v1", Event_10D_ContentGenerationRetried),
    ("reviews.requested.v1", Event_08B_ReviewsRequested),
    ("reviews.fetched.v1", Event_09B_ReviewsFetched),
    ("reviews.processed.v1", Event_10C_ReviewsProcessed),
    ("reviews.validated.v1", Event_11A_ReviewsValidated),
    ("reviews.fetch_failed.v1", Event_11B_ReviewsFetchFailed),
    ("reviews.stored.v1", Event_12A_ReviewsStored),
    ("reviews.error.v1", Event_12B_ReviewsError),
    ("quality.assessment.requested.v1", Event_06_QualityAssessmentRequested),
    ("quality.assessment.completed.v1", Event_07A_QualityAssessmentCompleted),
    ("quality.assessment.failed.v1", Event_07B_QualityAssessmentFailed),
    ("catalog.product.enrichment.requested.v1", CATALOG_PRODUCT_ENRICHMENT_REQUESTED_V1),
    ("catalog.product.enrichment.completed.v1", CATALOG_PRODUCT_ENRICHMENT_COMPLETED_V1),
    ("catalog.product.enrichment.failed.v1", CATALOG_PRODUCT_ENRICHMENT_FAILED_V1),
    ("product.enrichment.requested.v1", PRODUCT_ENRICHMENT_REQUESTED_V1),
    ("product.enrichment.completed.v1", PRODUCT_ENRICHMENT_COMPLETED_V1),
    ("product.enrichment.failed.v1", PRODUCT_ENRICHMENT_FAILED_V1) ]

/-- NormalizeEventType (pkg/events/events.go lines 952-1058): returns the
normalized event type and true if a switch case matched, otherwise the input
unchanged and false. -/
def NormalizeEventType (s : String) : String × Bool :=
  match normalizeCases.find? (fun p => p.1 == s) with
  | some p => (p.2, true)
  | none => (s, false)

/-! ## pkg/events/codes.go

`CodeToCE` is a Go map literal; its key set and key→value association are
order-independent (all keys are distinct), but the `CEToCode` inverse is
built by `for k, v := range CodeToCE`, and Go map iteration order is
unspecified.  The literal is embedded as the list of its entries in source
order, and the inverse construction is parameterized by the iteration
order actually taken (any permutation of these entries). -/

def CodeToCE : List (String × String) :=
  [ ("00A_SCRAPER_JOB_REQUESTED", "scraper.job.requested.v1"),
    ("01_PRODUCT_DETECTED", CatalogProductDetectedV1),
    ("02A_PRODUCT_VALIDATED", CatalogProductValidatedV1),
    ("02B_PRODUCT_IGNORED", CatalogProductIgnoredV1),
    ("02C_PRODUCT_REVIEW_REQUIRED", CatalogProductReviewRequiredV1),
    ("03A_PA_API_ENRICHMENT_ORCHESTRATION_STARTED", CatalogProductEnrichmentRequestedV1),
    ("03B_PA_API_ENRICHMENT_ORCHESTRATION_ENRICHED", CatalogProductEnrichmentCompletedV1),
    ("03C_PA_API_ENRICHMENT_ORCHESTRATION_FAILED", CatalogProductEnrichmentFailedV1),
    ("03D_PA_API_ENRICHMENT_ORCHESTRATION_COMPLETED", CatalogProductEnrichmentCompletedV1),
    ("04A_CONTENT_GENERATION_REQUESTED", ContentGenerationRequestedV1),
    ("04B_CONTENT_GENERATION_STARTED", ContentGenerationStartedV1),
    ("04C_CONTENT_GENERATED_COMPLETED", ContentGeneratedV1),
    ("04D_CONTENT_GENERATION_FAILED", ContentGenerationFailedV1),
    ("04E_CONTENT_GENERATION_RETRIED", ContentGenerationRetriedV1),
    ("05A_PORTAL_PUBLICATION_REQUESTED", "portal.publication.requested.v1"),
    ("05B_PORTAL_PUBLICATION_COMPLETED", "portal.publication.completed.v1"),
    ("05C_PORTAL_PUBLICATION_FAILED", "portal.publication.failed.v1"),
    ("MON_CONTENT_HEALTH_CHECK_SCHEDULED", "monitoring.content.health_check.scheduled.v1"),
    ("MON_CONTENT_HEALTH_CHECK_COMPLETED", "monitoring.content.health_check.completed.v1"),
    ("MON_CONTENT_HEALTH_CHECK_FAILED", "monitoring.content.health_check.failed.v1"),
    ("MON_CONTENT_VISIBILITY_ALERT", "monitoring.content.visibility.alert.v1"),
    ("MON_PRICE_UPDATE_SUCCEEDED", PriceUpdatedV1),
    ("MON_PRICE_UPDATE_FAILED", PriceUpdateFailedV1),
    ("MON_PRICE_UPDATE_SKIPPED", "price.update.skipped.v1"),
    ("MON_PRICE_CHANGE_DETECTED", "price.change.detected.v1"),
    ("MON_PRICE_HISTORY_RECORDED", "price.history.recorded.v1"),
    ("MON_PRICE_HISTORY_RECORD_FAILED", "price.history.record_failed.v1"),
    ("MON_PRICE_TREND_ANALYSIS_COMPLETED", "price.trend_analysis.completed.v1"),
    ("MON_PRICE_ALERT_TRIGGERED", "price.alert.triggered.v1"),
    ("MON_PRICE_ALERT_RESOLVED", "price.alert.resolved.v1"),
    ("MON_PRODUCT_DATA_REFRESH_SCHEDULED", "catalog.product.refresh.scheduled.v1"),
    ("MON_PRODUCT_DATA_REFRESH_COMPLETED", "catalog.product.refresh.completed.v1"),
    ("MON_PRODUCT_DATA_REFRESH_FAILED", "catalog.product.refresh.failed.v1"),
    ("MON_PRODUCT_AVAILABILITY_CHANGED", ProductAvailabilityChangedV1),
    ("MON_PRODUCT_STATUS_CHANGED", ProductStatusChangedV1),
    ("MON_PRODUCT_ARCHIVED", "product.archived.v1"),
    ("MON_SOCIAL_PROOF_UPDATED", "social_proof.updated.v1"),
    ("MON_SOCIAL_PROOF_UPDATE_FAILED", "social_proof.update_failed.v1"),
    ("MON_COMPLIANCE_REVIEW_REQUIRED", "compliance.review.required.v1"),
    ("MON_COMPLIANCE_REVIEW_PASSED", "compliance.review.passed.v1"),
    ("MON_COMPLIANCE_REVIEW_FAILED", "compliance.review.failed.v1"),
    ("MON_SUPPLY_CHAIN_ALERT_RAISED", "supply_chain.alert.raised.v1"),
    ("MON_SUPPLY_CHAIN_ALERT_RESOLVED", "supply_chain.alert.resolved.v1") ]

/-- The body of the CEToCode initializer (pkg/events/codes.go lines 76-85):
iterate over the entries in the order `iter`, inserting `value -> key` only
if the value is not already present ("prefer first writer in case of
duplicates").  In Go, `iter` is whatever order `range` over the map takes,
which is unspecified; any permutation of the entries of CodeToCE is a
possible iteration order. -/
def buildCEToCode (iter : List (String × String)) : List (String × String) :=
  iter.foldl
    (fun m kv =>
      match m.lookup kv.2 with
      | some _ => m
      | none => m ++ [(kv.2, kv.1)])
    []

/-- GetCETypeForCode (pkg/events/codes.go lines 88-91): forward lookup.
Key→value lookup in a Go map does not depend on iteration order, so the
source-order entry list is used directly. -/
def GetCETypeForCode (code : String) : Option String :=
  CodeToCE.lookup code

/-- GetCodeForCEType (pkg/events/codes.go lines 94-97): lookup in the
CEToCode inverse that was built from iteration order `iter`. -/
def GetCodeForCEType (iter : List (String × String)) (ceType : String) : Option String :=
  (buildCEToCode iter).lookup ceType

/-- One possible Go map iteration order for CodeToCE: the
03D entry first, the rest in source order. -/
def codeToCEAltOrder : List (String × String) :=
  ("03D_PA_API_ENRICHMENT_ORCHESTRATION_COMPLETED", CatalogProductEnrichmentCompletedV1) ::
    CodeToCE.erase ("03D_PA_API_ENRICHMENT_ORCHESTRATION_COMPLETED", CatalogProductEnrichmentCompletedV1)

/-! ## pkg/events/events.go — the Event struct (lines 335-343)

Payload is `any` in Go and opaque to the delivery core; it is modelled as
its serialized form.  `time.Time` is modelled as a Nat tick and the
metadata map as an association list. -/

structure Event where
  id : String
  type : String
  aggregateType : String
  aggregateID : String
  payload : String
  timestamp : Nat
  metadata : List (String × String)
deriving DecidableEq

/-! ## pkg/redis/stream_producer.go

The Redis stream (the broker) is modelled as the list of appended entries
plus a counter from which XAdd derives the next broker-assigned message ID
(`ID: "*"` lets Redis generate it, monotonically).  json.Marshal of an
Event is an external-library parameter `marshalEvent`. -/

structure BrokerStream where
  entries : List (String × String)
  nextID : Nat
deriving DecidableEq

/-- The broker's XAdd: appends the entry and returns the broker-assigned
message ID (the stream position). -/
def XAdd (st : BrokerStream) (eventData : String) : BrokerStream × String :=
  ({ entries := st.entries ++ [(toString st.nextID, eventData)], nextID := st.nextID + 1 },
   toString st.nextID)

inductive PublishErr where
  | emptyStreamName
  | nilEvent
  | marshalFailed
deriving DecidableEq

/-- PublishEvent (pkg/redis/stream_producer.go lines 32-65).  The Go
function returns only `error`; its result here is the new broker state
paired with that error (`none` = success).  On the success path the
broker-assigned messageID returned by XAdd is only passed to the debug log
and does not appear in the function's return value. -/
def PublishEvent (marshalEvent : Event → Option String) (st : BrokerStream)
    (streamName : String) (event : Option Event) : BrokerStream × Option PublishErr :=
  if streamName = "" then (st, some .emptyStreamName)
  else
    match event with
    | none => (st, some .nilEvent)
    | some ev =>
      match marshalEvent ev with
      | none => (st, some .marshalFailed)
      | some eventData =>
        let res := XAdd st eventData
        (res.1, none)

/-! ## pkg/redis/stream_consumer.go

ConsumeStream runs an infinite loop; each iteration first checks the
context in a `select`, then calls XReadGroup, then processes the returned
batch message by message.  The embedding makes the passage of time
explicit as a `tick` counter: the top-of-loop check of iteration happens
at some tick, and each processed message advances one tick.  The caller's
context is a `cancelAt` tick at which its done-channel fires (none =
never) together with the underlying error that `ctx.Err()` then reports.
The sequence of XReadGroup outcomes is an explicit finite trace; an
exhausted trace means the loop is still running (it has not returned).
The handler is the caller-supplied callback; `true` models a nil error.
The broker's XAck performed by AcknowledgeMessage is recorded as an
`ack` action. -/

structure XMessage where
  id : String
  values : List (String × String)
deriving DecidableEq

inductive CtxErr where
  | canceled
  | deadlineExceeded
deriving DecidableEq

structure Ctx where
  cancelAt : Option Nat
  err : CtxErr
deriving DecidableEq

/-- Whether the context's done-channel has fired by tick `t`. -/
def ctxFired (ctx : Ctx) (t : Nat) : Bool :=
  match ctx.cancelAt with
  | none => false
  | some c => c ≤ t

inductive ProcErr where
  | noEventData
  | unmarshalFailed
  | handlerFailed
deriving DecidableEq

/-- Observable consumer actions, tagged with the tick at which they occur:
`handle t id ok` is an invocation of the caller-supplied handler for
message `id` returning success `ok`; `ack t id` is the XAck issued by
AcknowledgeMessage. -/
inductive ConsumerAction where
  | handle (tick : Nat) (msgID : String) (ok : Bool)
  | ack (tick : Nat) (msgID : String)
deriving DecidableEq

/-- processMessage (pkg/redis/stream_consumer.go lines 103-137): extract
msg.Values["event"] (a missing key and a non-string value both fail the
type assertion), json.Unmarshal it into an Event (external-library
parameter `parseEvent`), invoke the handler, and on nil handler error
acknowledge the message.  Returns the actions performed and the error
returned to the loop.  The broker is modelled as accepting the XAck. -/
def processMessage (parseEvent : String → Option Event)
    (handler : Event → String → Bool) (tick : Nat) (msg : XMessage) :
    List ConsumerAction × Option ProcErr :=
  match msg.values.lookup "event" with
  | none => ([], some .noEventData)
  | some eventData =>
    match parseEvent eventData with
    | none => ([], some .unmarshalFailed)
    | some event =>
      if handler event msg.id then
        ([.handle tick msg.id true, .ack tick msg.id], none)
      else
        ([.handle tick msg.id false], some .handlerFailed)

/-- The message loop of ConsumeStream (pkg/redis/stream_consumer.go lines
87-97): every message of the delivered batch is processed; a processMessage
error is logged and processing continues with the next message. -/
def processBatch (parseEvent : String → Option Event)
    (handler : Event → String → Bool) : Nat → List XMessage → List ConsumerAction
  | _, [] => []
  | tick, msg :: rest =>
    (processMessage parseEvent handler tick msg).1 ++
      processBatch parseEvent handler (tick + 1) rest

/-- One XReadGroup outcome: redis.Nil (no messages), another read error
(includes a context canceled during the blocking read), or a batch. -/
inductive ReadResult where
  | nilErr
  | readErr
  | batch (msgs : List XMessage)
deriving DecidableEq

/-- ConsumeStream (pkg/redis/stream_consumer.go lines 48-100): on every
iteration the `select` first consults the context and returns ctx.Err() if
its done-channel has fired; otherwise the next XReadGroup outcome of the
trace is handled: redis.Nil and read errors continue the loop, a batch is
processed message by message.  The result is the list of performed actions
and `some e` iff the loop returned (necessarily with the context's error);
`none` means the modelled trace ended with the loop still polling. -/
def ConsumeStream (parseEvent : String → Option Event)
    (handler : Event → String → Bool) (ctx : Ctx) :
    List ReadResult → Nat → List ConsumerAction × Option CtxErr
  | [], _ => ([], none)
  | r :: rest, tick =>
    if ctxFired ctx tick then ([], some ctx.err)
    else
      match r with
      | .nilErr => ConsumeStream parseEvent handler ctx rest (tick + 1)
      | .readErr => ConsumeStream parseEvent handler ctx rest (tick + 1)
      | .batch msgs =>
        let acts := processBatch parseEvent handler (tick + 1) msgs
        let res := ConsumeStream parseEvent handler ctx rest (tick + 1 + msgs.length)
        (acts ++ res.1, res.2)


/-! ## Concrete instantiations used in closed theorems -/

/-- The invalid-JSON sample input of the repository's own payload tests. -/
def badJSON : String := "\x7b\"test\":\x7d"

/-- A validity oracle agreeing with json on the two inputs it is used at. -/
def validExceptBad : String → Bool := fun s => s != badJSON

/-- An (MaxPayloadSize + 1)-byte payload. -/
def bigX : String := String.mk (List.replicate (MaxPayloadSize + 1) 'x')

/-- An exactly-MaxPayloadSize payload. -/
def bigOk : String := String.mk (List.replicate MaxPayloadSize 'x')

/-- Codec whose marshal output is oversize. -/
def oversizeCodec : JsonCodec Unit :=
  { marshal := fun _ => some bigX, unmarshal := fun _ => none }

/-- Codec marshaling `true` to an exactly-maximum payload and `false` to a
one-byte-larger payload. -/
def boundaryCodec : JsonCodec Bool :=
  { marshal := fun b => some (cond b bigOk bigX), unmarshal := fun _ => none }

/-- A round-tripping codec on Bool. -/
def boolCodec : JsonCodec Bool :=
  { marshal := fun b => some (cond b "true" "false"),
    unmarshal := fun s => if s = "true" then some true else if s = "false" then some false else none }

/-- A sample Envelope. -/
def sampleEvent : Event :=
  { id := "evt-1", type := CATALOG_PRODUCT_VALIDATED_V1, aggregateType := "product",
    aggregateID := "B000123", payload := "null", timestamp := 0, metadata := [] }

/-- A concrete stand-in for json.Marshal of an Event. -/
def marshalEventSample : Event → Option String := fun ev => some ev.payload

/-- json.Unmarshal stand-in recognizing only the serialized form "E". -/
def parseE : String → Option Event := fun s => if s = "E" then some sampleEvent else none

/-- json.Unmarshal stand-in that always fails. -/
def parseNone : String → Option Event := fun _ => none

/-- A handler that always succeeds. -/
def handlerTrue : Event → String → Bool := fun _ _ => true

/-- A handler that always fails. -/
def handlerFalse : Event → String → Bool := fun _ _ => false

/-- Delivered entries whose "event" field deserializes via parseE. -/
def m1 : XMessage := { id := "m1", values := [("event", "E")] }

/-- Second such entry. -/
def m2 : XMessage := { id := "m2", values := [("event", "E")] }

/-- A context whose done-channel fires at tick 2 (mid-batch in the
c4 counterexample run). -/
def ctxMid : Ctx := { cancelAt := some 2, err := CtxErr.canceled }

/-! ## Theorems -/

/-- C10: the conversion entry points treat empty serialized input as the
canonical empty value rather than an error — ConvertStringToRawMessage ""
and ConvertBytesToRawMessage on a zero-length input both return
json.RawMessage("null") with no error, even though UnmarshalPayload
rejects an empty payload with an error. -/
theorem c10_empty_input_admitted_as_null :
    ConvertStringToRawMessage jsonValid "" = .ok "null" ∧
    ConvertBytesToRawMessage jsonValid "" = .ok "null" ∧
    ∀ (α : Type) (c : JsonCodec α),
      UnmarshalPayload c "" = .error ⟨"unmarshal", PayloadCause.emptyPayload⟩ := by
  refine ⟨rfl, rfl, fun α c => ?_⟩
  rfl

/-- C3 (counterexample): a structurally invalid serialized input — the
repository's own test sample — is rejected by the conversion entry
points with a "conversion"-operation PayloadError carrying the JSON
error, not with the "validation" kind (which carries the byte length);
so invalid input is not rejected with the same ValidationError kind as
oversize input. -/
theorem c3_counterexample :
    ConvertStringToRawMessage jsonValid badJSON =
      .error ⟨"conversion", PayloadCause.invalidJSONString⟩ ∧
    ConvertBytesToRawMessage jsonValid badJSON =
      .error ⟨"conversion", PayloadCause.invalidJSONBytes⟩ ∧
    ("conversion" : String) ≠ "validation" :=
  ⟨rfl, rfl, by decide⟩

/-- C3 (amended): the 16 KiB size limit is the same from every entry path
and oversize input that passes the path's well-formedness test is rejected
with the same "validation"-operation PayloadError carrying the triggering
byte length; but structurally invalid serialized input is rejected by the
two conversion entry points with a "conversion"-operation error (checked
before size and carrying the JSON error, not the byte length). -/
theorem c3_size_limit_uniform_invalid_is_conversion {α : Type} (c : JsonCodec α)
    (valid : String → Bool) (v : α) (d sOver sBad : String)
    (hm : c.marshal v = some d) (hd : d.length > MaxPayloadSize)
    (hvOver : valid sOver = true) (hOver : sOver.length > MaxPayloadSize)
    (hvBad : valid sBad = false) (hBadLen : sBad.length ≠ 0) :
    MarshalPayload c (some v) =
      .error ⟨"validation", PayloadCause.sizeExceeded d.length MaxPayloadSize⟩ ∧
    ConvertStringToRawMessage valid sOver =
      .error ⟨"validation", PayloadCause.sizeExceeded sOver.length MaxPayloadSize⟩ ∧
    ConvertBytesToRawMessage valid sOver =
      .error ⟨"validation", PayloadCause.sizeExceeded sOver.length MaxPayloadSize⟩ ∧
    ConvertStringToRawMessage valid sBad =
      .error ⟨"conversion", PayloadCause.invalidJSONString⟩ ∧
    ConvertBytesToRawMessage valid sBad =
      .error ⟨"conversion", PayloadCause.invalidJSONBytes⟩ := by
  have hOverNe : sOver ≠ "" := by
    intro h
    rw [h] at hOver
    exact absurd hOver (by decide)
  have hOverLen : sOver.length ≠ 0 := by
    intro h
    rw [h] at hOver
    exact absurd hOver (by decide)
  have hBadNe : sBad ≠ "" := by
    intro h
    apply hBadLen
    rw [h]
    rfl
  refine ⟨?_, ?_, ?_, ?_, ?_⟩
  · simp [MarshalPayload, hm, hd]
  · simp [ConvertStringToRawMessage, hOverNe, hvOver, hOver]
  · simp [ConvertBytesToRawMessage, hOverLen, hvOver, hOver]
  · simp [ConvertStringToRawMessage, hBadNe, hvBad]
  · simp [ConvertBytesToRawMessage, hBadLen, hvBad]

theorem bigX_length : bigX.length = MaxPayloadSize + 1 := by
  simp [bigX, String.length]

theorem bigOk_length : bigOk.length = MaxPayloadSize := by
  simp [bigOk, String.length]

/-- C3 (witness): the amended statement at concrete inputs — an
(MaxPayloadSize + 1)-byte payload through all three entry paths and the
test sample invalid input through the two conversion paths. -/
theorem c3_witness :
    MarshalPayload oversizeCodec (some ()) =
      .error ⟨"validation", PayloadCause.sizeExceeded bigX.length MaxPayloadSize⟩ ∧
    ConvertStringToRawMessage validExceptBad bigX =
      .error ⟨"validation", PayloadCause.sizeExceeded bigX.length MaxPayloadSize⟩ ∧
    ConvertBytesToRawMessage validExceptBad bigX =
      .error ⟨"validation", PayloadCause.sizeExceeded bigX.length MaxPayloadSize⟩ ∧
    ConvertStringToRawMessage validExceptBad badJSON =
      .error ⟨"conversion", PayloadCause.invalidJSONString⟩ ∧
    ConvertBytesToRawMessage validExceptBad badJSON =
      .error ⟨"conversion", PayloadCause.invalidJSONBytes⟩ :=
  c3_size_limit_uniform_invalid_is_conversion oversizeCodec validExceptBad () bigX bigX badJSON
    rfl (by rw [bigX_length]; exact Nat.lt_succ_self MaxPayloadSize)
    rfl (by rw [bigX_length]; exact Nat.lt_succ_self MaxPayloadSize)
    rfl (by decide)

/-- C6: for every value that serializes (via the modelled json codec) to
nonempty data within the 16 KiB bound, the guard returns exactly the
serialized data and unmarshaling it recovers the original value. -/
theorem c6_guard_unmarshal_roundtrip {α : Type} (c : JsonCodec α)
    (hrt : ∀ v data, c.marshal v = some data → c.unmarshal data = some v)
    (v : α) (data : String) (hm : c.marshal v = some data)
    (hle : data.length ≤ MaxPayloadSize) (hne : data.length ≠ 0) :
    MarshalPayload c (some v) = .ok data ∧ UnmarshalPayload c data = .ok v := by
  constructor
  · simp [MarshalPayload, hm, Nat.not_lt.mpr hle]
  · simp [UnmarshalPayload, hne, hrt v data hm]

/-- C6 (witness): the round-trip at the concrete Bool codec. -/
theorem c6_witness :
    MarshalPayload boolCodec (some true) = .ok "true" ∧
    UnmarshalPayload boolCodec "true" = .ok true :=
  c6_guard_unmarshal_roundtrip boolCodec
    (by
      intro v data h
      cases v <;> rw [← Option.some.inj h] <;> rfl)
    true "true" rfl (by decide) (by decide)

/-- C7: a payload whose serialized form is exactly MaxPayloadSize bytes is
accepted by MarshalPayload and by ValidatePayloadSize; one byte larger is
rejected by both with the "validation" PayloadError carrying the
triggering byte length. -/
theorem c7_boundary {α : Type} (c : JsonCodec α) (v w : α) (d e s t : String)
    (hmv : c.marshal v = some d) (hd : d.length = MaxPayloadSize)
    (hmw : c.marshal w = some e) (he : e.length = MaxPayloadSize + 1)
    (hs : s.length = MaxPayloadSize) (ht : t.length = MaxPayloadSize + 1) :
    MarshalPayload c (some v) = .ok d ∧
    MarshalPayload c (some w) =
      .error ⟨"validation", PayloadCause.sizeExceeded (MaxPayloadSize + 1) MaxPayloadSize⟩ ∧
    ValidatePayloadSize s = none ∧
    ValidatePayloadSize t =
      some ⟨"validation", PayloadCause.sizeExceeded (MaxPayloadSize + 1) MaxPayloadSize⟩ := by
  refine ⟨?_, ?_, ?_, ?_⟩
  · simp [MarshalPayload, hmv, hd]
  · simp [MarshalPayload, hmw, he]
  · simp [ValidatePayloadSize, hs]
  · simp [ValidatePayloadSize, ht]

/-- C7 (witness): the boundary at concrete 16384- and 16385-byte payloads. -/
theorem c7_witness :
    MarshalPayload boundaryCodec (some true) = .ok bigOk ∧
    MarshalPayload boundaryCodec (some false) =
      .error ⟨"validation", PayloadCause.sizeExceeded (MaxPayloadSize + 1) MaxPayloadSize⟩ ∧
    ValidatePayloadSize bigOk = none ∧
    ValidatePayloadSize bigX =
      some ⟨"validation", PayloadCause.sizeExceeded (MaxPayloadSize + 1) MaxPayloadSize⟩ :=
  c7_boundary boundaryCodec true false bigOk bigX bigOk bigX
    rfl bigOk_length rfl bigX_length bigOk_length bigX_length

theorem normalize_canonical_fixed :
    ∀ p ∈ normalizeCases, (NormalizeEventType p.2).1 = p.2 := by decide

/-- C2 (counterexample): normalization is not matched-idempotent — the
known legacy spelling CONTENT_GENERATION_REQUESTED normalizes (with
matched = true) to the canonical 08A_CONTENT_GENERATION_REQUESTED, but
normalizing that canonical result returns matched = false (it is not a
case of the switch), contradicting "normalizing an already-canonical
string returns it unchanged with matched = true". -/
theorem c2_counterexample :
    NormalizeEventType "CONTENT_GENERATION_REQUESTED" =
      ("08A_CONTENT_GENERATION_REQUESTED", true) ∧
    NormalizeEventType "08A_CONTENT_GENERATION_REQUESTED" =
      ("08A_CONTENT_GENERATION_REQUESTED", false) :=
  ⟨rfl, rfl⟩

/-- C2 (amended): normalization is value-idempotent — for every string x,
normalizing the canonical result of normalizing x returns that canonical
result unchanged: normalize(normalize(x).canonical).canonical ==
normalize(x).canonical — but the matched flag on the second application
is true only for canonical forms that are themselves registered switch
cases, not for the numbered canonical forms. -/
theorem c2_normalize_value_idempotent (s : String) :
    (NormalizeEventType (NormalizeEventType s).1).1 = (NormalizeEventType s).1 := by
  cases hf : normalizeCases.find? (fun p => p.1 == s) with
  | none =>
    have h1 : NormalizeEventType s = (s, false) := by
      unfold NormalizeEventType
      rw [hf]
    rw [h1]
    show (NormalizeEventType s).1 = s
    rw [h1]
  | some p =>
    have hmem : p ∈ normalizeCases := List.mem_of_find?_eq_some hf
    have h1 : NormalizeEventType s = (p.2, true) := by
      unfold NormalizeEventType
      rw [hf]
    rw [h1]
    exact normalize_canonical_fixed p hmem

/-- C8 (counterexample): the inverse lookup is not deterministically
first-registered-wins — `codeToCEAltOrder` is a permutation of the
entries of CodeToCE (hence a possible Go map iteration order), yet
building CEToCode from it makes GetCodeForCEType return the 03D code for
the shared completion type, while the registration order returns 03B; the
result depends on the unspecified iteration order. -/
theorem c8_counterexample :
    List.Perm codeToCEAltOrder CodeToCE ∧
    GetCodeForCEType CodeToCE CATALOG_PRODUCT_ENRICHMENT_COMPLETED_V1 =
      some "03B_PA_API_ENRICHMENT_ORCHESTRATION_ENRICHED" ∧
    GetCodeForCEType codeToCEAltOrder CATALOG_PRODUCT_ENRICHMENT_COMPLETED_V1 =
      some "03D_PA_API_ENRICHMENT_ORCHESTRATION_COMPLETED" := by
  refine ⟨?_, rfl, rfl⟩
  have hmem :
      ("03D_PA_API_ENRICHMENT_ORCHESTRATION_COMPLETED",
        CatalogProductEnrichmentCompletedV1) ∈ CodeToCE := by decide
  exact (List.perm_cons_erase hmem).symm

/-- C8 (amended): the forward table is total on its registered domain
(every registered code looks up to its canonical string), and when the
inverse is built in registration order the shared completion type maps to
the first-registered 03B code; for several-codes-to-one canonical strings
the code actually returned at runtime depends on the unspecified Go map
iteration order (see the counterexample). -/
theorem c8_forward_total_first_registered :
    (CodeToCE.all fun p => GetCETypeForCode p.1 == some p.2) = true ∧
    GetCodeForCEType CodeToCE CATALOG_PRODUCT_ENRICHMENT_COMPLETED_V1 =
      some "03B_PA_API_ENRICHMENT_ORCHESTRATION_ENRICHED" :=
  ⟨rfl, rfl⟩

/-- C1 (counterexample): PublishEvent does not return the broker-assigned
stream position — two broker states that assign different positions to
the same append yield identical caller-visible results (`nil` error and
nothing else), so the returned value cannot include the position.  (The
Go signature returns only `error`; the messageID from XAdd is logged and
discarded.) -/
theorem c1_counterexample :
    (XAdd ⟨[], 5⟩ "null").2 ≠ (XAdd ⟨[], 99⟩ "null").2 ∧
    (PublishEvent marshalEventSample ⟨[], 5⟩ "orders" (some sampleEvent)).2 = none ∧
    (PublishEvent marshalEventSample ⟨[], 99⟩ "orders" (some sampleEvent)).2 = none ∧
    (PublishEvent marshalEventSample ⟨[], 5⟩ "orders" (some sampleEvent)).2 =
      (PublishEvent marshalEventSample ⟨[], 99⟩ "orders" (some sampleEvent)).2 :=
  ⟨by decide, rfl, rfl, rfl⟩

/-- C1 (amended): a successful PublishEvent (nonempty stream name,
non-nil event, serialization succeeds) returns a nil error and appends
the serialized event under the broker-assigned ID, but the caller-visible
return value is the same for any two broker states — the assigned
position is not part of it. -/
theorem c1_publish_returns_no_position (marshalEvent : Event → Option String)
    (st st2 : BrokerStream) (streamName : String) (ev : Event) (data : String)
    (hname : streamName ≠ "") (hm : marshalEvent ev = some data) :
    (PublishEvent marshalEvent st streamName (some ev)).2 = none ∧
    (PublishEvent marshalEvent st streamName (some ev)).2 =
      (PublishEvent marshalEvent st2 streamName (some ev)).2 ∧
    (PublishEvent marshalEvent st streamName (some ev)).1 =
      { entries := st.entries ++ [(toString st.nextID, data)], nextID := st.nextID + 1 } := by
  refine ⟨?_, ?_, ?_⟩ <;> simp [PublishEvent, XAdd, hname, hm]

/-- C1 (witness): the amended statement at a concrete publish. -/
theorem c1_witness :
    (PublishEvent marshalEventSample ⟨[], 5⟩ "orders" (some sampleEvent)).2 = none ∧
    (PublishEvent marshalEventSample ⟨[], 5⟩ "orders" (some sampleEvent)).2 =
      (PublishEvent marshalEventSample ⟨[], 99⟩ "orders" (some sampleEvent)).2 ∧
    (PublishEvent marshalEventSample ⟨[], 5⟩ "orders" (some sampleEvent)).1 =
      { entries := ([] : List (String × String)) ++ [(toString 5, "null")], nextID := 5 + 1 } :=
  c1_publish_returns_no_position marshalEventSample ⟨[], 5⟩ ⟨[], 99⟩ "orders" sampleEvent "null"
    (by decide) rfl

/-- C4 (counterexample): the cancellation signal fires at tick 2, after
the first entry of an already-delivered two-entry batch has been handled
— yet the handler is still invoked (and the entry acknowledged) for the
second entry at tick 2, because the context is only consulted at the top
of the loop; consume then returns the cancellation error on the next
iteration.  This refutes "no further handler invocations occur once the
signal has fired, including for entries remaining in an
already-delivered batch". -/
theorem c4_counterexample :
    ctxFired ctxMid 2 = true ∧
    ConsumeStream parseE handlerTrue ctxMid [ReadResult.batch [m1, m2], ReadResult.nilErr] 0 =
      ([ConsumerAction.handle 1 "m1" true, ConsumerAction.ack 1 "m1",
        ConsumerAction.handle 2 "m2" true, ConsumerAction.ack 2 "m2"],
       some CtxErr.canceled) :=
  ⟨rfl, rfl⟩

/-- C4 (amended): consume returns only on cancellation and then with the
context's underlying error — any returned error is ctx.Err() and implies
the context fires; with a never-cancelled context no trace of broker read
errors, undeserializable entries or handler failures makes the loop
return; and when the done-channel has fired by the top of an iteration,
consume returns the underlying error immediately with no further handler
invocations.  However (see the counterexample) entries remaining in a
batch already being processed are still handled when the signal fires
mid-batch. -/
theorem c4_cancellation_only_exit (parseEvent : String → Option Event)
    (handler : Event → String → Bool) (ctx : Ctx) :
    (∀ trace tick e, (ConsumeStream parseEvent handler ctx trace tick).2 = some e →
        e = ctx.err ∧ ctx.cancelAt ≠ none) ∧
    (∀ trace tick, ctx.cancelAt = none →
        (ConsumeStream parseEvent handler ctx trace tick).2 = none) ∧
    (∀ r rest tick, ctxFired ctx tick = true →
        ConsumeStream parseEvent handler ctx (r :: rest) tick = ([], some ctx.err)) := by
  refine ⟨?_, ?_, ?_⟩
  · intro trace
    induction trace with
    | nil =>
      intro tick e h
      simp [ConsumeStream] at h
    | cons r rest ih =>
      intro tick e h
      by_cases hc : ctxFired ctx tick = true
      · simp [ConsumeStream, hc] at h
        refine ⟨h.symm, ?_⟩
        intro hnone
        rw [ctxFired, hnone] at hc
        exact Bool.false_ne_true hc
      · simp [ConsumeStream, hc] at h
        cases r with
        | nilErr => exact ih (tick + 1) e h
        | readErr => exact ih (tick + 1) e h
        | batch msgs => exact ih (tick + 1 + msgs.length) e h
  · intro trace
    induction trace with
    | nil =>
      intro tick _
      simp [ConsumeStream]
    | cons r rest ih =>
      intro tick hnone
      have hc : ctxFired ctx tick = false := by rw [ctxFired, hnone]
      simp [ConsumeStream, hc]
      cases r with
      | nilErr => exact ih (tick + 1) hnone
      | readErr => exact ih (tick + 1) hnone
      | batch msgs => exact ih (tick + 1 + msgs.length) hnone
  · intro r rest tick hc
    simp [ConsumeStream, hc]

/-- C4 (witness): the amended statement applied at a context already
cancelled at tick 0, where consume returns the underlying error. -/
theorem c4_witness :
    CtxErr.canceled = (Ctx.mk (some 0) CtxErr.canceled).err ∧
    (Ctx.mk (some 0) CtxErr.canceled).cancelAt ≠ none :=
  (c4_cancellation_only_exit parseNone handlerTrue ⟨some 0, CtxErr.canceled⟩).1
    [ReadResult.nilErr] 0 CtxErr.canceled rfl

/-- C5: for each delivered entry that deserializes successfully, the
consumer acknowledges the entry if and only if the handler returns
success — on success the XAck is issued immediately after the handler
invocation, before any action of the next entry; on failure the entry is
not acknowledged, the error is only logged, and batch processing
continues with the remaining entries, whose actions follow. -/
theorem c5_ack_iff_handler_success (parseEvent : String → Option Event)
    (handler : Event → String → Bool) (tick : Nat) (msg : XMessage)
    (rest : List XMessage) (eventData : String) (event : Event)
    (hlook : msg.values.lookup "event" = some eventData)
    (hparse : parseEvent eventData = some event) :
    processMessage parseEvent handler tick msg =
      (if handler event msg.id then
        ([ConsumerAction.handle tick msg.id true, ConsumerAction.ack tick msg.id], none)
       else
        ([ConsumerAction.handle tick msg.id false], some ProcErr.handlerFailed)) ∧
    processBatch parseEvent handler tick (msg :: rest) =
      (processMessage parseEvent handler tick msg).1 ++
        processBatch parseEvent handler (tick + 1) rest := by
  constructor
  · simp [processMessage, hlook, hparse]
  · rfl

/-- C5 (witness): the acknowledgment behavior at a concrete two-entry
batch whose first entry's handler fails — it is not acknowledged and the
second entry is still processed. -/
theorem c5_witness :
    processMessage parseE handlerFalse 0 m1 =
      (if handlerFalse sampleEvent "m1" then
        ([ConsumerAction.handle 0 "m1" true, ConsumerAction.ack 0 "m1"], none)
       else
        ([ConsumerAction.handle 0 "m1" false], some ProcErr.handlerFailed)) ∧
    processBatch parseE handlerFalse 0 [m1, m2] =
      (processMessage parseE handlerFalse 0 m1).1 ++ processBatch parseE handlerFalse 1 [m2] :=
  c5_ack_iff_handler_success parseE handlerFalse 0 m1 [m2] "E" sampleEvent rfl rfl

/-- C9: a delivered entry that fails to deserialize — either because the
"event" field is missing or because json.Unmarshal fails on it — is
skipped with no action at all: the caller-supplied handler is never
invoked for it and no acknowledgment is issued. -/
theorem c9_undeserializable_skipped (parseEvent : String → Option Event)
    (handler : Event → String → Bool) (tick : Nat) (msg : XMessage) :
    (msg.values.lookup "event" = none →
      processMessage parseEvent handler tick msg = ([], some ProcErr.noEventData)) ∧
    (∀ d, msg.values.lookup "event" = some d → parseEvent d = none →
      processMessage parseEvent handler tick msg = ([], some ProcErr.unmarshalFailed)) := by
  constructor
  · intro hlook
    simp [processMessage, hlook]
  · intro d hlook hparse
    simp [processMessage, hlook, hparse]

/-- C9 (witness): a concrete entry whose event data fails to parse
produces no handler invocation and no acknowledgment. -/
theorem c9_witness :
    processMessage parseNone handlerTrue 0 m1 = ([], some ProcErr.unmarshalFailed) :=
  (c9_undeserializable_skipped parseNone handlerTrue 0 m1).2 "E" rfl rfl
